import Mathlib

/-!
Verification of the Agriport/Farm2Market reservation and transaction
workflow.  The data model is embedded from the PostgreSQL schema
(`CREATE TYPE` enum types and `CREATE TABLE` statements); the workflow
operations are absent from the repository (only the schema, markup and
styling are present), so each operation is modelled from the
specification text, as marked in its doc comment.
-/

namespace Agriport

/-- Embeds `CREATE TYPE product_status AS ENUM ('available', 'reserved', 'sold')`. -/
inductive ProductStatus
  | available
  | reserved
  | sold
deriving DecidableEq, Repr

/-- Embeds `CREATE TYPE reservation_status AS ENUM ('pending', 'approved', 'rejected', 'completed')`. -/
inductive ReservationStatus
  | pending
  | approved
  | rejected
  | completed
deriving DecidableEq, Repr

/-- Embeds the `products` table (essential columns; NUMERIC quantities and
prices are modelled as `Nat`, timestamps as `Nat` ticks). -/
structure Product where
  product_id : Nat
  farmer_id : Nat
  name : String
  price : Nat
  quantity : Nat
  unit : String
  status : ProductStatus
deriving DecidableEq, Repr

/-- Embeds the `reservations` table: `status reservation_status DEFAULT 'pending'`,
`requested_at` defaulted to the current timestamp, nullable `resolved_at`. -/
structure Reservation where
  reservation_id : Nat
  product_id : Nat
  buyer_id : Nat
  quantity : Nat
  status : ReservationStatus
  requested_at : Nat
  resolved_at : Option Nat
deriving DecidableEq, Repr

/-- Embeds the `momo_transactions` table: nullable `reservation_id`,
`momo_reference VARCHAR(100) NOT NULL` with no uniqueness constraint,
`is_confirmed BOOLEAN DEFAULT FALSE`, nullable `confirmed_at`. -/
structure MomoTransaction where
  transaction_id : Nat
  reservation_id : Option Nat
  farmer_id : Nat
  buyer_id : Nat
  amount : Nat
  momo_reference : String
  receipt_image_url : Option String
  transaction_date : Nat
  is_confirmed : Bool
  confirmed_at : Option Nat
deriving DecidableEq, Repr

/-- Embeds the `reviews` table: `reservation_id INTEGER UNIQUE` (nullable),
`rating INTEGER NOT NULL CHECK (rating BETWEEN 1 AND 5)`. -/
structure Review where
  review_id : Nat
  reservation_id : Option Nat
  reviewer_id : Nat
  farmer_id : Nat
  rating : Nat
  comment : Option String
  created_at : Nat
deriving DecidableEq, Repr

/-- Embeds the `notifications` table (essential columns). -/
structure Notification where
  notification_id : Nat
  user_id : Nat
  title : String
  message : String
  is_read : Bool
  created_at : Nat
  notification_type : String
deriving DecidableEq, Repr

/-- Embeds the `favorites` table: nullable `product_id` and `farmer_id`
subject to the schema CHECK constraint `favoriteCheck` below. -/
structure Favorite where
  favorite_id : Nat
  buyer_id : Nat
  product_id : Option Nat
  farmer_id : Option Nat
  created_at : Nat
deriving DecidableEq, Repr

/-- The relational store: one list per table of the schema that the
workflow touches. -/
structure DB where
  products : List Product
  reservations : List Reservation
  transactions : List MomoTransaction
  reviews : List Review
  notifications : List Notification
  favorites : List Favorite
deriving DecidableEq, Repr

/-- Embeds the spec's error taxonomy (§7): ValidationError,
StateConflictError, ReferentialError. -/
inductive WorkflowError
  | ValidationError
  | StateConflictError
  | ReferentialError
deriving DecidableEq, Repr

/-- Embeds the CHECK constraint on `favorites`:
`(product_id IS NOT NULL AND farmer_id IS NULL) OR (product_id IS NULL AND farmer_id IS NOT NULL)`. -/
def favoriteCheck (f : Favorite) : Bool :=
  (f.product_id.isSome && f.farmer_id.isNone) || (f.product_id.isNone && f.farmer_id.isSome)

/-- Modelled from the spec: emitting a Notification row addressed to a single
user as a side effect of a workflow transition (§4.3).  The operation code is
not in the repository; only the `notifications` schema is. -/
def notifyUser (db : DB) (nid userId : Nat) (title msg kind : String) (now : Nat) : DB :=
  { db with notifications := db.notifications ++
      [{ notification_id := nid, user_id := userId, title := title,
         message := msg, is_read := false, created_at := now,
         notification_type := kind }] }

/-- The Reservation row inserted by the Create transition: status pending,
requested_at set to the current time, resolved_at NULL. -/
def newReservation (rid buyerId productId qty now : Nat) : Reservation :=
  { reservation_id := rid, product_id := productId, buyer_id := buyerId,
    quantity := qty, status := ReservationStatus.pending,
    requested_at := now, resolved_at := none }

/-- Modelled from the spec: the Create transition (§4.1).  The operation code
is not in the repository.  Buyer submits (product_id, quantity); fails with
ValidationError if quantity exceeds the product quantity or the product is not
available; on success inserts one Reservation with status pending and
requested_at set to now, and touches nothing else. -/
def createReservation (db : DB) (rid buyerId productId qty now : Nat) :
    Except WorkflowError DB :=
  match db.products.find? (fun p => p.product_id == productId) with
  | none => Except.error WorkflowError.ReferentialError
  | some p =>
      if p.quantity < qty || p.status != ProductStatus.available then
        Except.error WorkflowError.ValidationError
      else
        Except.ok { db with reservations :=
          db.reservations ++ [newReservation rid buyerId productId qty now] }

/-- Modelled from the spec: the product status written at approval time —
`reserved`, or `sold` when the reservation consumes the product's entire
remaining quantity (§4.1, Scenario 1). -/
def approvedProductStatus (p : Product) (r : Reservation) : ProductStatus :=
  if p.quantity ≤ r.quantity then ProductStatus.sold else ProductStatus.reserved

/-- The per-row write performed on `reservations` by the Approve transition:
SQL `UPDATE reservations SET status = 'approved', resolved_at = now WHERE
reservation_id = resId` applied to one row. -/
def markApproved (resId now : Nat) (x : Reservation) : Reservation :=
  if x.reservation_id == resId then
    { x with status := ReservationStatus.approved, resolved_at := some now }
  else x

/-- The per-row write performed on `reservations` by the Reject transition. -/
def markRejected (resId now : Nat) (x : Reservation) : Reservation :=
  if x.reservation_id == resId then
    { x with status := ReservationStatus.rejected, resolved_at := some now }
  else x

/-- The per-row write performed on `reservations` by the Complete transition
(the spec sets only the status here). -/
def markCompleted (resId : Nat) (x : Reservation) : Reservation :=
  if x.reservation_id == resId then { x with status := ReservationStatus.completed } else x

/-- The per-row write on `products`: SQL `UPDATE products SET status = st
WHERE product_id = pid` applied to one row. -/
def setProductStatus (pid : Nat) (st : ProductStatus) (x : Product) : Product :=
  if x.product_id == pid then { x with status := st } else x

/-- Modelled from the spec: the Approve transition (§4.1).  The operation code
is not in the repository.  Allowed only from pending (otherwise
StateConflictError); sets reservation.status approved and resolved_at now,
sets the product's status to reserved or sold, and emits one Notification to
the buyer. -/
def approveReservation (db : DB) (resId nid now : Nat) : Except WorkflowError DB :=
  match db.reservations.find? (fun r => r.reservation_id == resId) with
  | none => Except.error WorkflowError.ReferentialError
  | some r =>
      if r.status != ReservationStatus.pending then
        Except.error WorkflowError.StateConflictError
      else
        match db.products.find? (fun p => p.product_id == r.product_id) with
        | none => Except.error WorkflowError.ReferentialError
        | some p =>
            Except.ok (notifyUser
              { db with
                reservations := db.reservations.map (markApproved resId now),
                products := db.products.map
                  (setProductStatus p.product_id (approvedProductStatus p r)) }
              nid r.buyer_id "Reservation approved"
              "Your reservation was approved" "reservation" now)

/-- Modelled from the spec: the Reject transition (§4.1).  The operation code
is not in the repository.  Allowed only from pending (otherwise
StateConflictError); sets reservation.status rejected and resolved_at now,
the product remains or returns to available, and one Notification goes to the
buyer. -/
def rejectReservation (db : DB) (resId nid now : Nat) : Except WorkflowError DB :=
  match db.reservations.find? (fun r => r.reservation_id == resId) with
  | none => Except.error WorkflowError.ReferentialError
  | some r =>
      if r.status != ReservationStatus.pending then
        Except.error WorkflowError.StateConflictError
      else
        Except.ok (notifyUser
          { db with
            reservations := db.reservations.map (markRejected resId now),
            products := db.products.map
              (setProductStatus r.product_id ProductStatus.available) }
          nid r.buyer_id "Reservation rejected"
          "Your reservation was rejected" "reservation" now)

/-- Modelled from the spec: the Complete transition (§4.1).  The operation
code is not in the repository.  Allowed only from approved (otherwise
StateConflictError); sets reservation.status completed and product.status
sold. -/
def completeReservation (db : DB) (resId : Nat) : Except WorkflowError DB :=
  match db.reservations.find? (fun r => r.reservation_id == resId) with
  | none => Except.error WorkflowError.ReferentialError
  | some r =>
      if r.status != ReservationStatus.approved then
        Except.error WorkflowError.StateConflictError
      else
        Except.ok { db with
          reservations := db.reservations.map (markCompleted resId),
          products := db.products.map
            (setProductStatus r.product_id ProductStatus.sold) }

/-- The Transaction row inserted by Record transaction: is_confirmed false,
confirmed_at NULL, transaction_date set to the current time. -/
def newTransaction (txId resId farmerId buyerId amount : Nat) (ref : String)
    (receipt : Option String) (now : Nat) : MomoTransaction :=
  { transaction_id := txId, reservation_id := some resId,
    farmer_id := farmerId, buyer_id := buyerId, amount := amount,
    momo_reference := ref, receipt_image_url := receipt,
    transaction_date := now, is_confirmed := false, confirmed_at := none }

/-- Modelled from the spec: Record transaction (§4.2).  The operation code is
not in the repository.  Allowed only when the reservation's status is
approved or completed (otherwise ValidationError, Scenario 4); inserts one
Transaction with is_confirmed false.  The schema places no uniqueness
constraint on momo_reference, so no duplicate check is performed. -/
def recordTransaction (db : DB) (txId resId farmerId buyerId amount : Nat)
    (ref : String) (receipt : Option String) (now : Nat) : Except WorkflowError DB :=
  match db.reservations.find? (fun r => r.reservation_id == resId) with
  | none => Except.error WorkflowError.ReferentialError
  | some r =>
      if r.status == ReservationStatus.approved || r.status == ReservationStatus.completed then
        Except.ok { db with transactions :=
          db.transactions ++ [newTransaction txId resId farmerId buyerId amount ref receipt now] }
      else
        Except.error WorkflowError.ValidationError

/-- The per-row write on `momo_transactions` performed by Confirm
transaction: sets is_confirmed true and confirmed_at now on the matching
row. -/
def markConfirmed (txId now : Nat) (x : MomoTransaction) : MomoTransaction :=
  if x.transaction_id == txId then
    { x with is_confirmed := true, confirmed_at := some now }
  else x

/-- Modelled from the spec: Confirm transaction (§4.2, §8).  The operation
code is not in the repository.  Sets is_confirmed true and confirmed_at now;
confirming an already-confirmed transaction is a no-op. -/
def confirmTransaction (db : DB) (txId now : Nat) : Except WorkflowError DB :=
  match db.transactions.find? (fun t => t.transaction_id == txId) with
  | none => Except.error WorkflowError.ReferentialError
  | some t =>
      if t.is_confirmed then
        Except.ok db
      else
        Except.ok { db with transactions := db.transactions.map (markConfirmed txId now) }

/-- The Review row inserted by Review creation, linked 1:1 to its
reservation. -/
def newReview (reviewId resId reviewerId farmerId rating : Nat)
    (comment : Option String) (now : Nat) : Review :=
  { review_id := reviewId, reservation_id := some resId,
    reviewer_id := reviewerId, farmer_id := farmerId,
    rating := rating, comment := comment, created_at := now }

/-- Modelled from the spec: Review creation (§3, §8).  The operation code is
not in the repository.  Fails with ValidationError unless the referenced
reservation has status completed, the rating lies in 1..5 (schema CHECK), and
no review for that reservation exists yet (schema UNIQUE on
reviews.reservation_id). -/
def createReview (db : DB) (reviewId resId reviewerId farmerId rating : Nat)
    (comment : Option String) (now : Nat) : Except WorkflowError DB :=
  match db.reservations.find? (fun r => r.reservation_id == resId) with
  | none => Except.error WorkflowError.ReferentialError
  | some r =>
      if r.status != ReservationStatus.completed then
        Except.error WorkflowError.ValidationError
      else if db.reviews.any (fun v => v.reservation_id == some resId) then
        Except.error WorkflowError.ValidationError
      else if rating < 1 || 5 < rating then
        Except.error WorkflowError.ValidationError
      else
        Except.ok { db with reviews :=
          db.reviews ++ [newReview reviewId resId reviewerId farmerId rating comment now] }

/-- A favorites row as submitted for insertion. -/
def newFavorite (favId buyerId : Nat) (productId farmerId : Option Nat)
    (now : Nat) : Favorite :=
  { favorite_id := favId, buyer_id := buyerId,
    product_id := productId, farmer_id := farmerId, created_at := now }

/-- Modelled from the spec: inserting a favorites row.  Only the schema is in
the repository; the insert is modelled as the database engine enforcing the
CHECK constraint, rejecting any row naming both or neither of a product and a
farmer. -/
def addFavorite (db : DB) (favId buyerId : Nat) (productId farmerId : Option Nat)
    (now : Nat) : Except WorkflowError DB :=
  if favoriteCheck (newFavorite favId buyerId productId farmerId now) then
    Except.ok { db with favorites :=
      db.favorites ++ [newFavorite favId buyerId productId farmerId now] }
  else
    Except.error WorkflowError.ValidationError

/-- The workflow operations, as a single alphabet for quantifying over every
operation of the system. -/
inductive Op
  | create (rid buyerId productId qty now : Nat)
  | approve (resId nid now : Nat)
  | reject (resId nid now : Nat)
  | complete (resId : Nat)
  | record (txId resId farmerId buyerId amount : Nat) (ref : String)
      (receipt : Option String) (now : Nat)
  | confirm (txId now : Nat)
  | review (reviewId resId reviewerId farmerId rating : Nat)
      (comment : Option String) (now : Nat)
  | favorite (favId buyerId : Nat) (productId farmerId : Option Nat) (now : Nat)
deriving DecidableEq, Repr

/-- Dispatch of every workflow operation. -/
def applyOp (db : DB) : Op → Except WorkflowError DB
  | Op.create rid buyerId productId qty now => createReservation db rid buyerId productId qty now
  | Op.approve resId nid now => approveReservation db resId nid now
  | Op.reject resId nid now => rejectReservation db resId nid now
  | Op.complete resId => completeReservation db resId
  | Op.record txId resId farmerId buyerId amount ref receipt now =>
      recordTransaction db txId resId farmerId buyerId amount ref receipt now
  | Op.confirm txId now => confirmTransaction db txId now
  | Op.review reviewId resId reviewerId farmerId rating comment now =>
      createReview db reviewId resId reviewerId farmerId rating comment now
  | Op.favorite favId buyerId productId farmerId now =>
      addFavorite db favId buyerId productId farmerId now

/-- The legal edges of the reservation state machine (§4.1, §8): staying put,
pending→approved, pending→rejected, approved→completed. -/
def allowedTransition (a b : ReservationStatus) : Bool :=
  a == b ||
    (a == ReservationStatus.pending &&
      (b == ReservationStatus.approved || b == ReservationStatus.rejected)) ||
    (a == ReservationStatus.approved && b == ReservationStatus.completed)

/-- The invariant claimed in §8: a sold product has an associated completed
reservation. -/
def soldImpliesCompleted (db : DB) : Bool :=
  db.products.all (fun p => p.status != ProductStatus.sold ||
    db.reservations.any (fun r =>
      r.product_id == p.product_id && r.status == ReservationStatus.completed))

/-- The weakening of `soldImpliesCompleted` that the modelled workflow
actually maintains: a sold product has an associated approved or completed
reservation. -/
def soldImpliesSettled (db : DB) : Bool :=
  db.products.all (fun p => p.status != ProductStatus.sold ||
    db.reservations.any (fun r =>
      r.product_id == p.product_id &&
        (r.status == ReservationStatus.approved ||
         r.status == ReservationStatus.completed)))

/-- Every favorites row satisfies the schema CHECK constraint. -/
def favoritesOk (db : DB) : Bool :=
  db.favorites.all favoriteCheck

/-- The reviews linked to a given reservation. -/
def reviewsFor (db : DB) (resId : Nat) : List Review :=
  db.reviews.filter (fun v => v.reservation_id == some resId)

/-- Primary-key uniqueness of `reservations.reservation_id` (SERIAL PRIMARY
KEY in the schema). -/
def reservationIdsNodup (db : DB) : Prop :=
  (db.reservations.map (fun r => r.reservation_id)).Nodup

/-- Primary-key uniqueness of `momo_transactions.transaction_id`. -/
def transactionIdsNodup (db : DB) : Prop :=
  (db.transactions.map (fun t => t.transaction_id)).Nodup

theorem createReservation_ok_inv {db db' : DB} {rid buyerId productId qty now : Nat}
    (h : createReservation db rid buyerId productId qty now = Except.ok db') :
    ∃ p, db.products.find? (fun x => x.product_id == productId) = some p ∧
      qty ≤ p.quantity ∧ p.status = ProductStatus.available ∧
      db' = { db with reservations :=
        db.reservations ++ [newReservation rid buyerId productId qty now] } := by
  unfold createReservation at h
  split at h
  · exact absurd h (by simp)
  next p hf =>
    split at h
    · exact absurd h (by simp)
    next hg =>
      simp only [Bool.or_eq_true, decide_eq_true_eq, bne_iff_ne, ne_eq, not_or,
        not_lt, not_not] at hg
      exact ⟨p, hf, hg.1, hg.2, (Except.ok.inj h).symm⟩

theorem approveReservation_ok_inv {db db' : DB} {resId nid now : Nat}
    (h : approveReservation db resId nid now = Except.ok db') :
    ∃ r p, db.reservations.find? (fun x => x.reservation_id == resId) = some r ∧
      r.status = ReservationStatus.pending ∧
      db.products.find? (fun x => x.product_id == r.product_id) = some p ∧
      db' = notifyUser
        { db with
          reservations := db.reservations.map (markApproved resId now),
          products := db.products.map
            (setProductStatus p.product_id (approvedProductStatus p r)) }
        nid r.buyer_id "Reservation approved" "Your reservation was approved"
        "reservation" now := by
  unfold approveReservation at h
  split at h
  · exact absurd h (by simp)
  next r hf =>
    split at h
    · exact absurd h (by simp)
    next hs =>
      split at h
      · exact absurd h (by simp)
      next p hp =>
        simp only [bne_iff_ne, ne_eq, not_not] at hs
        exact ⟨r, p, hf, hs, hp, (Except.ok.inj h).symm⟩

theorem rejectReservation_ok_inv {db db' : DB} {resId nid now : Nat}
    (h : rejectReservation db resId nid now = Except.ok db') :
    ∃ r, db.reservations.find? (fun x => x.reservation_id == resId) = some r ∧
      r.status = ReservationStatus.pending ∧
      db' = notifyUser
        { db with
          reservations := db.reservations.map (markRejected resId now),
          products := db.products.map
            (setProductStatus r.product_id ProductStatus.available) }
        nid r.buyer_id "Reservation rejected" "Your reservation was rejected"
        "reservation" now := by
  unfold rejectReservation at h
  split at h
  · exact absurd h (by simp)
  next r hf =>
    split at h
    · exact absurd h (by simp)
    next hs =>
      simp only [bne_iff_ne, ne_eq, not_not] at hs
      exact ⟨r, hf, hs, (Except.ok.inj h).symm⟩

theorem completeReservation_ok_inv {db db' : DB} {resId : Nat}
    (h : completeReservation db resId = Except.ok db') :
    ∃ r, db.reservations.find? (fun x => x.reservation_id == resId) = some r ∧
      r.status = ReservationStatus.approved ∧
      db' = { db with
        reservations := db.reservations.map (markCompleted resId),
        products := db.products.map
          (setProductStatus r.product_id ProductStatus.sold) } := by
  unfold completeReservation at h
  split at h
  · exact absurd h (by simp)
  next r hf =>
    split at h
    · exact absurd h (by simp)
    next hs =>
      simp only [bne_iff_ne, ne_eq, not_not] at hs
      exact ⟨r, hf, hs, (Except.ok.inj h).symm⟩

theorem recordTransaction_ok_inv {db db' : DB}
    {txId resId farmerId buyerId amount : Nat} {ref : String}
    {receipt : Option String} {now : Nat}
    (h : recordTransaction db txId resId farmerId buyerId amount ref receipt now
          = Except.ok db') :
    ∃ r, db.reservations.find? (fun x => x.reservation_id == resId) = some r ∧
      (r.status = ReservationStatus.approved ∨ r.status = ReservationStatus.completed) ∧
      db' = { db with transactions :=
        db.transactions ++ [newTransaction txId resId farmerId buyerId amount ref receipt now] } := by
  unfold recordTransaction at h
  split at h
  · exact absurd h (by simp)
  next r hf =>
    split at h
    next hg =>
      simp only [Bool.or_eq_true, beq_iff_eq] at hg
      exact ⟨r, hf, hg, (Except.ok.inj h).symm⟩
    next hg => exact absurd h (by simp)

theorem confirmTransaction_ok_inv {db db' : DB} {txId now : Nat}
    (h : confirmTransaction db txId now = Except.ok db') :
    ∃ t, db.transactions.find? (fun x => x.transaction_id == txId) = some t ∧
      ((t.is_confirmed = true ∧ db' = db) ∨
       (t.is_confirmed = false ∧ db' = { db with
          transactions := db.transactions.map (markConfirmed txId now) })) := by
  unfold confirmTransaction at h
  split at h
  · exact absurd h (by simp)
  next t hf =>
    split at h
    next hc => exact ⟨t, hf, Or.inl ⟨hc, (Except.ok.inj h).symm⟩⟩
    next hc =>
      exact ⟨t, hf, Or.inr ⟨by simpa using hc, (Except.ok.inj h).symm⟩⟩

theorem createReview_ok_inv {db db' : DB}
    {reviewId resId reviewerId farmerId rating : Nat} {comment : Option String}
    {now : Nat}
    (h : createReview db reviewId resId reviewerId farmerId rating comment now
          = Except.ok db') :
    ∃ r, db.reservations.find? (fun x => x.reservation_id == resId) = some r ∧
      r.status = ReservationStatus.completed ∧
      db.reviews.any (fun v => v.reservation_id == some resId) = false ∧
      1 ≤ rating ∧ rating ≤ 5 ∧
      db' = { db with reviews :=
        db.reviews ++ [newReview reviewId resId reviewerId farmerId rating comment now] } := by
  unfold createReview at h
  split at h
  · exact absurd h (by simp)
  next r hf =>
    split at h
    · exact absurd h (by simp)
    next hs =>
      split at h
      · exact absurd h (by simp)
      next hdup =>
        split at h
        · exact absurd h (by simp)
        next hrange =>
          simp only [bne_iff_ne, ne_eq, not_not] at hs
          simp only [Bool.not_eq_true] at hdup
          simp only [Bool.or_eq_true, decide_eq_true_eq, not_or, not_lt] at hrange
          exact ⟨r, hf, hs, hdup, hrange.1, hrange.2, (Except.ok.inj h).symm⟩

theorem addFavorite_ok_inv {db db' : DB} {favId buyerId : Nat}
    {productId farmerId : Option Nat} {now : Nat}
    (h : addFavorite db favId buyerId productId farmerId now = Except.ok db') :
    favoriteCheck (newFavorite favId buyerId productId farmerId now) = true ∧
      db' = { db with favorites :=
        db.favorites ++ [newFavorite favId buyerId productId farmerId now] } := by
  unfold addFavorite at h
  split at h
  next hc => exact ⟨hc, (Except.ok.inj h).symm⟩
  next hc => exact absurd h (by simp)

theorem find?_reservation_mem {l : List Reservation} {resId : Nat} {r : Reservation}
    (h : l.find? (fun x => x.reservation_id == resId) = some r) :
    r ∈ l ∧ r.reservation_id = resId :=
  ⟨List.mem_of_find?_eq_some h, by simpa using List.find?_some h⟩

theorem reservation_eq_of_nodup {l : List Reservation} {resId : Nat} {r x : Reservation}
    (hnd : (l.map (fun y => y.reservation_id)).Nodup)
    (h : l.find? (fun y => y.reservation_id == resId) = some r)
    (hx : x ∈ l) (hid : x.reservation_id = resId) : x = r := by
  have hr := find?_reservation_mem h
  exact List.inj_on_of_nodup_map hnd hx hr.1 (by rw [hid, hr.2])

theorem find?_transaction_mem {l : List MomoTransaction} {txId : Nat} {t : MomoTransaction}
    (h : l.find? (fun x => x.transaction_id == txId) = some t) :
    t ∈ l ∧ t.transaction_id = txId :=
  ⟨List.mem_of_find?_eq_some h, by simpa using List.find?_some h⟩

theorem transaction_eq_of_nodup {l : List MomoTransaction} {txId : Nat}
    {t x : MomoTransaction}
    (hnd : (l.map (fun y => y.transaction_id)).Nodup)
    (h : l.find? (fun y => y.transaction_id == txId) = some t)
    (hx : x ∈ l) (hid : x.transaction_id = txId) : x = t := by
  have ht := find?_transaction_mem h
  exact List.inj_on_of_nodup_map hnd hx ht.1 (by rw [hid, ht.2])

theorem approveReservation_conflict {db : DB} {resId nid now : Nat} {r : Reservation}
    (hf : db.reservations.find? (fun x => x.reservation_id == resId) = some r)
    (hs : r.status ≠ ReservationStatus.pending) :
    approveReservation db resId nid now = Except.error WorkflowError.StateConflictError := by
  unfold approveReservation
  rw [hf]
  simp [hs]

theorem rejectReservation_conflict {db : DB} {resId nid now : Nat} {r : Reservation}
    (hf : db.reservations.find? (fun x => x.reservation_id == resId) = some r)
    (hs : r.status ≠ ReservationStatus.pending) :
    rejectReservation db resId nid now = Except.error WorkflowError.StateConflictError := by
  unfold rejectReservation
  rw [hf]
  simp [hs]

theorem completeReservation_conflict {db : DB} {resId : Nat} {r : Reservation}
    (hf : db.reservations.find? (fun x => x.reservation_id == resId) = some r)
    (hs : r.status ≠ ReservationStatus.approved) :
    completeReservation db resId = Except.error WorkflowError.StateConflictError := by
  unfold completeReservation
  rw [hf]
  simp [hs]

/-- A concrete product row for witnesses, with a chosen status and
quantity. -/
def sampleProduct (st : ProductStatus) (qty : Nat) : Product :=
  { product_id := 1, farmer_id := 1, name := "Tomatoes", price := 500,
    quantity := qty, unit := "kg", status := st }

/-- A concrete reservation row for witnesses, against `sampleProduct`. -/
def sampleReservation (st : ReservationStatus) (qty : Nat) : Reservation :=
  { reservation_id := 1, product_id := 1, buyer_id := 2, quantity := qty,
    status := st, requested_at := 0, resolved_at := none }

/-- A concrete mobile-money transaction row for witnesses. -/
def sampleTransaction (confirmed : Bool) : MomoTransaction :=
  { transaction_id := 1, reservation_id := some 1, farmer_id := 1, buyer_id := 2,
    amount := 5000, momo_reference := "MP240101.1234.A11111",
    receipt_image_url := none, transaction_date := 0,
    is_confirmed := confirmed, confirmed_at := if confirmed then some 0 else none }

/-- A concrete store with one product, the given reservations and
transactions, and all other tables empty. -/
def sampleDB (p : Product) (rs : List Reservation) (ts : List MomoTransaction) : DB :=
  { products := [p], reservations := rs, transactions := ts, reviews := [],
    notifications := [], favorites := [] }

/-- C2: for a create-reservation request against an existing product, the
operation fails with ValidationError when the requested quantity exceeds the
product's quantity or the product is not available; otherwise it succeeds,
appending exactly one reservation row with status pending and requested_at
set to the current time, and leaves the product rows (and every other table)
unchanged. -/
theorem create_reservation_spec (db : DB) (rid buyerId productId qty now : Nat)
    (p : Product)
    (hf : db.products.find? (fun x => x.product_id == productId) = some p) :
    ((p.quantity < qty ∨ p.status ≠ ProductStatus.available) →
      createReservation db rid buyerId productId qty now
        = Except.error WorkflowError.ValidationError) ∧
    (qty ≤ p.quantity → p.status = ProductStatus.available →
      ∃ db', createReservation db rid buyerId productId qty now = Except.ok db' ∧
        db'.reservations
          = db.reservations ++ [newReservation rid buyerId productId qty now] ∧
        (newReservation rid buyerId productId qty now).status
          = ReservationStatus.pending ∧
        (newReservation rid buyerId productId qty now).requested_at = now ∧
        db'.products = db.products ∧
        db'.transactions = db.transactions ∧
        db'.reviews = db.reviews ∧
        db'.notifications = db.notifications ∧
        db'.favorites = db.favorites) := by
  constructor
  · intro hbad
    unfold createReservation
    rw [hf]
    rcases hbad with hb | hb <;> simp [hb]
  · intro hq hs
    refine ⟨{ db with reservations :=
      db.reservations ++ [newReservation rid buyerId productId qty now] },
      ?_, rfl, rfl, rfl, rfl, rfl, rfl, rfl, rfl⟩
    unfold createReservation
    rw [hf]
    simp [hs, Nat.not_lt.mpr hq]

/-- Witness for C2: Scenario 2's first step, reserving 5 of a 10-unit
available product, succeeds and appends the pending row. -/
theorem create_reservation_spec_witness :
    ∃ db', createReservation (sampleDB (sampleProduct ProductStatus.available 10) [] [])
            1 2 1 5 0 = Except.ok db' ∧
      db'.reservations = [] ++ [newReservation 1 2 1 5 0] ∧
      (newReservation 1 2 1 5 0).status = ReservationStatus.pending ∧
      (newReservation 1 2 1 5 0).requested_at = 0 ∧
      db'.products = (sampleDB (sampleProduct ProductStatus.available 10) [] []).products ∧
      db'.transactions = [] ∧ db'.reviews = [] ∧ db'.notifications = [] ∧
      db'.favorites = [] :=
  (create_reservation_spec (sampleDB (sampleProduct ProductStatus.available 10) [] [])
    1 2 1 5 0 (sampleProduct ProductStatus.available 10) (by decide)).2
    (by decide) (by decide)

/-- C3: approving a pending reservation succeeds, marks that reservation
approved with resolved_at set to now, sets the referenced product's status to
reserved — or to sold when the reservation's quantity covers the product's
entire quantity — and appends exactly one Notification addressed to the
reservation's buyer. -/
theorem approve_reservation_spec (db : DB) (resId nid now : Nat)
    (r : Reservation) (p : Product)
    (hf : db.reservations.find? (fun x => x.reservation_id == resId) = some r)
    (hs : r.status = ReservationStatus.pending)
    (hp : db.products.find? (fun x => x.product_id == r.product_id) = some p) :
    ∃ db', approveReservation db resId nid now = Except.ok db' ∧
      (∃ x ∈ db'.reservations, x.reservation_id = r.reservation_id ∧
        x.status = ReservationStatus.approved ∧ x.resolved_at = some now) ∧
      (∃ q ∈ db'.products, q.product_id = p.product_id ∧
        (p.quantity ≤ r.quantity → q.status = ProductStatus.sold) ∧
        (r.quantity < p.quantity → q.status = ProductStatus.reserved)) ∧
      (∃ n, db'.notifications = db.notifications ++ [n] ∧ n.user_id = r.buyer_id) := by
  have hr := find?_reservation_mem hf
  have hpmem : p ∈ db.products := List.mem_of_find?_eq_some hp
  refine ⟨notifyUser
      { db with
        reservations := db.reservations.map (markApproved resId now),
        products := db.products.map
          (setProductStatus p.product_id (approvedProductStatus p r)) }
      nid r.buyer_id "Reservation approved" "Your reservation was approved"
      "reservation" now, ?_, ?_, ?_, ?_⟩
  · unfold approveReservation
    rw [hf]
    simp [hs, hp]
  · refine ⟨markApproved resId now r,
      List.mem_map_of_mem (markApproved resId now) hr.1, ?_⟩
    unfold markApproved
    simp [hr.2]
  · refine ⟨setProductStatus p.product_id (approvedProductStatus p r) p,
      List.mem_map_of_mem (setProductStatus p.product_id (approvedProductStatus p r))
        hpmem, ?_⟩
    unfold setProductStatus approvedProductStatus
    refine ⟨by simp, ?_, ?_⟩
    · intro hq
      simp [hq]
    · intro hq
      simp [Nat.not_le.mpr hq]
  · exact ⟨_, rfl, rfl⟩

/-- Witness for C3: Scenario 1 — a quantity-10 pending reservation against a
quantity-10 available product is approved; the reservation becomes approved
with resolved_at set, the product becomes sold, and one notification goes to
buyer 2. -/
theorem approve_reservation_spec_witness :
    ∃ db', approveReservation
        (sampleDB (sampleProduct ProductStatus.available 10)
          [sampleReservation ReservationStatus.pending 10] []) 1 1 5
        = Except.ok db' ∧
      (∃ x ∈ db'.reservations,
        x.reservation_id = (sampleReservation ReservationStatus.pending 10).reservation_id ∧
        x.status = ReservationStatus.approved ∧ x.resolved_at = some 5) ∧
      (∃ q ∈ db'.products,
        q.product_id = (sampleProduct ProductStatus.available 10).product_id ∧
        ((sampleProduct ProductStatus.available 10).quantity
            ≤ (sampleReservation ReservationStatus.pending 10).quantity →
          q.status = ProductStatus.sold) ∧
        ((sampleReservation ReservationStatus.pending 10).quantity
            < (sampleProduct ProductStatus.available 10).quantity →
          q.status = ProductStatus.reserved)) ∧
      (∃ n, db'.notifications = [] ++ [n] ∧
        n.user_id = (sampleReservation ReservationStatus.pending 10).buyer_id) :=
  approve_reservation_spec
    (sampleDB (sampleProduct ProductStatus.available 10)
      [sampleReservation ReservationStatus.pending 10] []) 1 1 5
    (sampleReservation ReservationStatus.pending 10)
    (sampleProduct ProductStatus.available 10) rfl rfl rfl

/-- C4: rejecting a pending reservation succeeds, marks that reservation
rejected with resolved_at set to now, appends exactly one Notification
addressed to the buyer, and on the product side leaves every product row's
non-status fields unchanged, with the referenced product's status available
and every other product's status untouched. -/
theorem reject_reservation_spec (db : DB) (resId nid now : Nat) (r : Reservation)
    (hf : db.reservations.find? (fun x => x.reservation_id == resId) = some r)
    (hs : r.status = ReservationStatus.pending) :
    ∃ db', rejectReservation db resId nid now = Except.ok db' ∧
      (∃ x ∈ db'.reservations, x.reservation_id = r.reservation_id ∧
        x.status = ReservationStatus.rejected ∧ x.resolved_at = some now) ∧
      (∀ q ∈ db.products, ∃ x ∈ db'.products,
        x.product_id = q.product_id ∧ x.farmer_id = q.farmer_id ∧
        x.name = q.name ∧ x.price = q.price ∧ x.quantity = q.quantity ∧
        x.unit = q.unit ∧
        (q.product_id = r.product_id → x.status = ProductStatus.available) ∧
        (q.product_id ≠ r.product_id → x.status = q.status)) ∧
      (∃ n, db'.notifications = db.notifications ++ [n] ∧ n.user_id = r.buyer_id) := by
  have hr := find?_reservation_mem hf
  refine ⟨notifyUser
      { db with
        reservations := db.reservations.map (markRejected resId now),
        products := db.products.map
          (setProductStatus r.product_id ProductStatus.available) }
      nid r.buyer_id "Reservation rejected" "Your reservation was rejected"
      "reservation" now, ?_, ?_, ?_, ?_⟩
  · unfold rejectReservation
    rw [hf]
    simp [hs]
  · refine ⟨markRejected resId now r,
      List.mem_map_of_mem (markRejected resId now) hr.1, ?_⟩
    unfold markRejected
    simp [hr.2]
  · intro q hq
    refine ⟨setProductStatus r.product_id ProductStatus.available q,
      List.mem_map_of_mem (setProductStatus r.product_id ProductStatus.available) hq, ?_⟩
    unfold setProductStatus
    by_cases hid : q.product_id = r.product_id
    · simp [hid]
    · simp [hid]
  · exact ⟨_, rfl, rfl⟩

/-- Witness for C4: Scenario 2 — rejecting a pending quantity-5 reservation
against a quantity-10 available product marks it rejected, keeps the product
available with all other fields intact, and notifies buyer 2. -/
theorem reject_reservation_spec_witness :
    ∃ db', rejectReservation
        (sampleDB (sampleProduct ProductStatus.available 10)
          [sampleReservation ReservationStatus.pending 5] []) 1 1 5
        = Except.ok db' ∧
      (∃ x ∈ db'.reservations,
        x.reservation_id = (sampleReservation ReservationStatus.pending 5).reservation_id ∧
        x.status = ReservationStatus.rejected ∧ x.resolved_at = some 5) ∧
      (∀ q ∈ (sampleDB (sampleProduct ProductStatus.available 10)
          [sampleReservation ReservationStatus.pending 5] []).products,
        ∃ x ∈ db'.products,
        x.product_id = q.product_id ∧ x.farmer_id = q.farmer_id ∧
        x.name = q.name ∧ x.price = q.price ∧ x.quantity = q.quantity ∧
        x.unit = q.unit ∧
        (q.product_id = (sampleReservation ReservationStatus.pending 5).product_id →
          x.status = ProductStatus.available) ∧
        (q.product_id ≠ (sampleReservation ReservationStatus.pending 5).product_id →
          x.status = q.status)) ∧
      (∃ n, db'.notifications = [] ++ [n] ∧
        n.user_id = (sampleReservation ReservationStatus.pending 5).buyer_id) :=
  reject_reservation_spec
    (sampleDB (sampleProduct ProductStatus.available 10)
      [sampleReservation ReservationStatus.pending 5] []) 1 1 5
    (sampleReservation ReservationStatus.pending 5) rfl rfl

/-- C6: recording a mobile-money transaction against a reservation whose
status is neither approved nor completed — in particular a pending one —
fails with ValidationError; against an approved or completed reservation it
succeeds and appends exactly one transaction row with is_confirmed false. -/
theorem record_transaction_spec (db : DB) (txId resId farmerId buyerId amount : Nat)
    (ref : String) (receipt : Option String) (now : Nat) (r : Reservation)
    (hf : db.reservations.find? (fun x => x.reservation_id == resId) = some r) :
    (r.status ≠ ReservationStatus.approved → r.status ≠ ReservationStatus.completed →
      recordTransaction db txId resId farmerId buyerId amount ref receipt now
        = Except.error WorkflowError.ValidationError) ∧
    ((r.status = ReservationStatus.approved ∨ r.status = ReservationStatus.completed) →
      ∃ db', recordTransaction db txId resId farmerId buyerId amount ref receipt now
          = Except.ok db' ∧
        db'.transactions = db.transactions
          ++ [newTransaction txId resId farmerId buyerId amount ref receipt now] ∧
        (newTransaction txId resId farmerId buyerId amount ref receipt now).is_confirmed
          = false) := by
  constructor
  · intro h1 h2
    unfold recordTransaction
    rw [hf]
    simp [h1, h2]
  · intro hg
    refine ⟨{ db with transactions := db.transactions
        ++ [newTransaction txId resId farmerId buyerId amount ref receipt now] },
      ?_, rfl, rfl⟩
    unfold recordTransaction
    rw [hf]
    rcases hg with hg | hg <;> simp [hg]

/-- Witness for C6: Scenario 4 — recording a transaction against a pending
reservation fails with ValidationError. -/
theorem record_transaction_spec_witness :
    recordTransaction
        (sampleDB (sampleProduct ProductStatus.available 10)
          [sampleReservation ReservationStatus.pending 5] [])
        1 1 1 2 5000 "MP240101.1234.A11111" none 9
      = Except.error WorkflowError.ValidationError :=
  (record_transaction_spec
    (sampleDB (sampleProduct ProductStatus.available 10)
      [sampleReservation ReservationStatus.pending 5] [])
    1 1 1 2 5000 "MP240101.1234.A11111" none 9
    (sampleReservation ReservationStatus.pending 5) rfl).1
    (by decide) (by decide)

/-- C7: the schema puts no uniqueness constraint on momo_reference, so
recording a second transaction that reuses an existing transaction's
momo_reference succeeds, leaving two distinct rows with the same
reference. -/
theorem duplicate_momo_reference_permitted (db : DB)
    (txId resId farmerId buyerId amount : Nat) (receipt : Option String)
    (now : Nat) (t0 : MomoTransaction) (r : Reservation)
    (ht0 : t0 ∈ db.transactions)
    (hf : db.reservations.find? (fun x => x.reservation_id == resId) = some r)
    (hs : r.status = ReservationStatus.approved)
    (hid : txId ≠ t0.transaction_id) :
    ∃ db', recordTransaction db txId resId farmerId buyerId amount
        t0.momo_reference receipt now = Except.ok db' ∧
      ∃ t1 ∈ db'.transactions, t0 ∈ db'.transactions ∧
        t1.transaction_id ≠ t0.transaction_id ∧
        t1.momo_reference = t0.momo_reference := by
  refine ⟨{ db with transactions := db.transactions
      ++ [newTransaction txId resId farmerId buyerId amount t0.momo_reference receipt now] },
    ?_, newTransaction txId resId farmerId buyerId amount t0.momo_reference receipt now,
    ?_, ?_, hid, rfl⟩
  · unfold recordTransaction
    rw [hf]
    simp [hs]
  · simp
  · exact List.mem_append_left _ ht0

/-- Witness for C7: against a store already holding a confirmed transaction
with a given reference, recording a new transaction with that same reference
for an approved reservation succeeds and yields two distinct rows sharing
the reference. -/
theorem duplicate_momo_reference_permitted_witness :
    ∃ db', recordTransaction
        (sampleDB (sampleProduct ProductStatus.reserved 10)
          [sampleReservation ReservationStatus.approved 5]
          [sampleTransaction true])
        2 1 1 2 5000 (sampleTransaction true).momo_reference none 9
      = Except.ok db' ∧
      ∃ t1 ∈ db'.transactions, sampleTransaction true ∈ db'.transactions ∧
        t1.transaction_id ≠ (sampleTransaction true).transaction_id ∧
        t1.momo_reference = (sampleTransaction true).momo_reference :=
  duplicate_momo_reference_permitted
    (sampleDB (sampleProduct ProductStatus.reserved 10)
      [sampleReservation ReservationStatus.approved 5] [sampleTransaction true])
    2 1 1 2 5000 none 9 (sampleTransaction true)
    (sampleReservation ReservationStatus.approved 5)
    (by simp [sampleDB]) rfl rfl (by decide)

/-- C8: confirming is idempotent — on an already-confirmed transaction the
operation returns the store entirely unchanged (so the row, including
confirmed_at, is untouched), while on an unconfirmed transaction it succeeds
and that row gets is_confirmed true with confirmed_at set to now. -/
theorem confirm_transaction_idempotent (db : DB) (txId now : Nat)
    (t : MomoTransaction)
    (hf : db.transactions.find? (fun x => x.transaction_id == txId) = some t) :
    (t.is_confirmed = true → confirmTransaction db txId now = Except.ok db) ∧
    (t.is_confirmed = false →
      ∃ db', confirmTransaction db txId now = Except.ok db' ∧
        ∃ x ∈ db'.transactions, x.transaction_id = t.transaction_id ∧
          x.is_confirmed = true ∧ x.confirmed_at = some now) := by
  have ht := find?_transaction_mem hf
  constructor
  · intro hc
    unfold confirmTransaction
    rw [hf]
    simp [hc]
  · intro hc
    refine ⟨{ db with transactions := db.transactions.map (markConfirmed txId now) },
      ?_, markConfirmed txId now t,
      List.mem_map_of_mem (markConfirmed txId now) ht.1, ?_⟩
    · unfold confirmTransaction
      rw [hf]
      simp [hc]
    · unfold markConfirmed
      simp [ht.2]

/-- Witness for C8: confirming the already-confirmed sample transaction
returns the store unchanged, and confirming the unconfirmed one stamps it
with confirmed_at 7. -/
theorem confirm_transaction_idempotent_witness :
    confirmTransaction
        (sampleDB (sampleProduct ProductStatus.reserved 10) []
          [sampleTransaction true]) 1 7
      = Except.ok (sampleDB (sampleProduct ProductStatus.reserved 10) []
          [sampleTransaction true]) ∧
    ∃ db', confirmTransaction
        (sampleDB (sampleProduct ProductStatus.reserved 10) []
          [sampleTransaction false]) 1 7
      = Except.ok db' ∧
      ∃ x ∈ db'.transactions,
        x.transaction_id = (sampleTransaction false).transaction_id ∧
        x.is_confirmed = true ∧ x.confirmed_at = some 7 :=
  ⟨(confirm_transaction_idempotent
      (sampleDB (sampleProduct ProductStatus.reserved 10) [] [sampleTransaction true])
      1 7 (sampleTransaction true) rfl).1 rfl,
   (confirm_transaction_idempotent
      (sampleDB (sampleProduct ProductStatus.reserved 10) [] [sampleTransaction false])
      1 7 (sampleTransaction false) rfl).2 rfl⟩

theorem allowedTransition_refl (a : ReservationStatus) : allowedTransition a a = true := by
  cases a <;> rfl

theorem markApproved_reservation_id (resId now : Nat) (x : Reservation) :
    (markApproved resId now x).reservation_id = x.reservation_id := by
  unfold markApproved
  split <;> rfl

theorem markRejected_reservation_id (resId now : Nat) (x : Reservation) :
    (markRejected resId now x).reservation_id = x.reservation_id := by
  unfold markRejected
  split <;> rfl

theorem markCompleted_reservation_id (resId : Nat) (x : Reservation) :
    (markCompleted resId x).reservation_id = x.reservation_id := by
  unfold markCompleted
  split <;> rfl

theorem markApproved_transition {db : DB} {resId now : Nat} {r0 : Reservation}
    (hnd : reservationIdsNodup db)
    (hf : db.reservations.find? (fun y => y.reservation_id == resId) = some r0)
    (hs : r0.status = ReservationStatus.pending)
    {r : Reservation} (hr : r ∈ db.reservations) :
    allowedTransition r.status (markApproved resId now r).status = true := by
  unfold markApproved
  by_cases hid : r.reservation_id = resId
  · have he : r = r0 := reservation_eq_of_nodup hnd hf hr hid
    subst he
    simp only [hid, beq_self_eq_true, if_true, hs]
    rfl
  · simp only [beq_eq_false_iff_ne.mpr hid, Bool.false_eq_true, if_false]
    exact allowedTransition_refl _

theorem markRejected_transition {db : DB} {resId now : Nat} {r0 : Reservation}
    (hnd : reservationIdsNodup db)
    (hf : db.reservations.find? (fun y => y.reservation_id == resId) = some r0)
    (hs : r0.status = ReservationStatus.pending)
    {r : Reservation} (hr : r ∈ db.reservations) :
    allowedTransition r.status (markRejected resId now r).status = true := by
  unfold markRejected
  by_cases hid : r.reservation_id = resId
  · have he : r = r0 := reservation_eq_of_nodup hnd hf hr hid
    subst he
    simp only [hid, beq_self_eq_true, if_true, hs]
    rfl
  · simp only [beq_eq_false_iff_ne.mpr hid, Bool.false_eq_true, if_false]
    exact allowedTransition_refl _

theorem markCompleted_transition {db : DB} {resId : Nat} {r0 : Reservation}
    (hnd : reservationIdsNodup db)
    (hf : db.reservations.find? (fun y => y.reservation_id == resId) = some r0)
    (hs : r0.status = ReservationStatus.approved)
    {r : Reservation} (hr : r ∈ db.reservations) :
    allowedTransition r.status (markCompleted resId r).status = true := by
  unfold markCompleted
  by_cases hid : r.reservation_id = resId
  · have he : r = r0 := reservation_eq_of_nodup hnd hf hr hid
    subst he
    simp only [hid, beq_self_eq_true, if_true, hs]
    rfl
  · simp only [beq_eq_false_iff_ne.mpr hid, Bool.false_eq_true, if_false]
    exact allowedTransition_refl _

theorem transitions_of_same (db : DB) :
    (∀ r ∈ db.reservations, ∃ x ∈ db.reservations,
      x.reservation_id = r.reservation_id ∧
      allowedTransition r.status x.status = true) ∧
    (∀ x ∈ db.reservations, x.status = ReservationStatus.pending ∨
      ∃ r ∈ db.reservations, r.reservation_id = x.reservation_id ∧
        allowedTransition r.status x.status = true) :=
  ⟨fun r hr => ⟨r, hr, rfl, allowedTransition_refl _⟩,
   fun x hx => Or.inr ⟨x, hx, rfl, allowedTransition_refl _⟩⟩

theorem transitions_of_append {db : DB} {n : Reservation}
    (hn : n.status = ReservationStatus.pending) :
    (∀ r ∈ db.reservations, ∃ x ∈ db.reservations ++ [n],
      x.reservation_id = r.reservation_id ∧
      allowedTransition r.status x.status = true) ∧
    (∀ x ∈ db.reservations ++ [n], x.status = ReservationStatus.pending ∨
      ∃ r ∈ db.reservations, r.reservation_id = x.reservation_id ∧
        allowedTransition r.status x.status = true) := by
  constructor
  · intro r hr
    exact ⟨r, List.mem_append_left _ hr, rfl, allowedTransition_refl _⟩
  · intro x hx
    rcases List.mem_append.mp hx with hx | hx
    · exact Or.inr ⟨x, hx, rfl, allowedTransition_refl _⟩
    · rw [List.mem_singleton.mp hx]
      exact Or.inl hn

theorem transitions_of_map {db : DB} {f : Reservation → Reservation}
    (hid : ∀ x, (f x).reservation_id = x.reservation_id)
    (htr : ∀ r ∈ db.reservations, allowedTransition r.status (f r).status = true) :
    (∀ r ∈ db.reservations, ∃ x ∈ db.reservations.map f,
      x.reservation_id = r.reservation_id ∧
      allowedTransition r.status x.status = true) ∧
    (∀ x ∈ db.reservations.map f, x.status = ReservationStatus.pending ∨
      ∃ r ∈ db.reservations, r.reservation_id = x.reservation_id ∧
        allowedTransition r.status x.status = true) := by
  constructor
  · intro r hr
    exact ⟨f r, List.mem_map_of_mem f hr, hid r, htr r hr⟩
  · intro x hx
    obtain ⟨r, hr, hxr⟩ := List.mem_map.mp hx
    refine Or.inr ⟨r, hr, ?_, ?_⟩
    · rw [← hxr, hid]
    · rw [← hxr]
      exact htr r hr

/-- C1: under primary-key uniqueness of reservation ids, every successful
workflow operation moves each reservation only along the legal edges — it
stays put, or goes pending→approved, pending→rejected, or approved→completed
— and every reservation row not stemming from an existing one starts at
pending; moreover approving or rejecting a reservation that is not pending,
or completing one that is not approved, fails with StateConflictError (so the
store is unchanged).  Statuses outside
{pending, approved, rejected, completed} are ruled out by the
`ReservationStatus` type embedding the SQL enum. -/
theorem reservation_state_machine (db : DB) (hnd : reservationIdsNodup db) :
    (∀ op db', applyOp db op = Except.ok db' →
      (∀ r ∈ db.reservations, ∃ x ∈ db'.reservations,
        x.reservation_id = r.reservation_id ∧
        allowedTransition r.status x.status = true) ∧
      (∀ x ∈ db'.reservations, x.status = ReservationStatus.pending ∨
        ∃ r ∈ db.reservations, r.reservation_id = x.reservation_id ∧
          allowedTransition r.status x.status = true)) ∧
    (∀ resId nid now r,
      db.reservations.find? (fun x => x.reservation_id == resId) = some r →
      r.status ≠ ReservationStatus.pending →
      applyOp db (Op.approve resId nid now)
          = Except.error WorkflowError.StateConflictError ∧
      applyOp db (Op.reject resId nid now)
          = Except.error WorkflowError.StateConflictError) ∧
    (∀ resId r,
      db.reservations.find? (fun x => x.reservation_id == resId) = some r →
      r.status ≠ ReservationStatus.approved →
      applyOp db (Op.complete resId)
          = Except.error WorkflowError.StateConflictError) := by
  refine ⟨?_, ?_, ?_⟩
  · intro op db' hok
    cases op with
    | create rid buyerId productId qty now =>
        obtain ⟨p, hf, hq, hs, hdb⟩ := createReservation_ok_inv hok
        subst hdb
        exact transitions_of_append rfl
    | approve resId nid now =>
        obtain ⟨r0, p, hf, hs, hp, hdb⟩ := approveReservation_ok_inv hok
        subst hdb
        exact transitions_of_map (markApproved_reservation_id resId now)
          (fun r hr => markApproved_transition hnd hf hs hr)
    | reject resId nid now =>
        obtain ⟨r0, hf, hs, hdb⟩ := rejectReservation_ok_inv hok
        subst hdb
        exact transitions_of_map (markRejected_reservation_id resId now)
          (fun r hr => markRejected_transition hnd hf hs hr)
    | complete resId =>
        obtain ⟨r0, hf, hs, hdb⟩ := completeReservation_ok_inv hok
        subst hdb
        exact transitions_of_map (markCompleted_reservation_id resId)
          (fun r hr => markCompleted_transition hnd hf hs hr)
    | record txId resId farmerId buyerId amount ref receipt now =>
        obtain ⟨r0, hf, hs, hdb⟩ := recordTransaction_ok_inv hok
        subst hdb
        exact transitions_of_same db
    | confirm txId now =>
        obtain ⟨t, hf, hcase⟩ := confirmTransaction_ok_inv hok
        rcases hcase with ⟨hc, hdb⟩ | ⟨hc, hdb⟩ <;> subst hdb <;>
          exact transitions_of_same _
    | review reviewId resId reviewerId farmerId rating comment now =>
        obtain ⟨r0, hf, hs, hdup, h1, h5, hdb⟩ := createReview_ok_inv hok
        subst hdb
        exact transitions_of_same db
    | favorite favId buyerId productId farmerId now =>
        obtain ⟨hc, hdb⟩ := addFavorite_ok_inv hok
        subst hdb
        exact transitions_of_same db
  · intro resId nid now r hf hs
    exact ⟨approveReservation_conflict hf hs, rejectReservation_conflict hf hs⟩
  · intro resId r hf hs
    exact completeReservation_conflict hf hs

/-- Witness for C1: Scenario 3 — on a store whose only reservation is already
approved, approving it again (and likewise rejecting it) fails with
StateConflictError, and completing the store's reservation while it is
pending also fails. -/
theorem reservation_state_machine_witness :
    (applyOp (sampleDB (sampleProduct ProductStatus.reserved 10)
        [sampleReservation ReservationStatus.approved 5] [])
      (Op.approve 1 9 9) = Except.error WorkflowError.StateConflictError ∧
     applyOp (sampleDB (sampleProduct ProductStatus.reserved 10)
        [sampleReservation ReservationStatus.approved 5] [])
      (Op.reject 1 9 9) = Except.error WorkflowError.StateConflictError) ∧
    applyOp (sampleDB (sampleProduct ProductStatus.available 10)
        [sampleReservation ReservationStatus.pending 5] [])
      (Op.complete 1) = Except.error WorkflowError.StateConflictError :=
  ⟨(reservation_state_machine
      (sampleDB (sampleProduct ProductStatus.reserved 10)
        [sampleReservation ReservationStatus.approved 5] [])
      (by unfold reservationIdsNodup; decide)).2.1 1 9 9
      (sampleReservation ReservationStatus.approved 5) rfl (by decide),
   (reservation_state_machine
      (sampleDB (sampleProduct ProductStatus.available 10)
        [sampleReservation ReservationStatus.pending 5] [])
      (by unfold reservationIdsNodup; decide)).2.2 1
      (sampleReservation ReservationStatus.pending 5) rfl (by decide)⟩

theorem find?_product_mem {l : List Product} {pid : Nat} {p : Product}
    (h : l.find? (fun x => x.product_id == pid) = some p) :
    p ∈ l ∧ p.product_id = pid :=
  ⟨List.mem_of_find?_eq_some h, by simpa using List.find?_some h⟩

theorem markApproved_product_id (resId now : Nat) (x : Reservation) :
    (markApproved resId now x).product_id = x.product_id := by
  unfold markApproved
  split <;> rfl

theorem markRejected_product_id (resId now : Nat) (x : Reservation) :
    (markRejected resId now x).product_id = x.product_id := by
  unfold markRejected
  split <;> rfl

theorem markCompleted_product_id (resId : Nat) (x : Reservation) :
    (markCompleted resId x).product_id = x.product_id := by
  unfold markCompleted
  split <;> rfl

theorem setProductStatus_product_id (pid : Nat) (st : ProductStatus) (x : Product) :
    (setProductStatus pid st x).product_id = x.product_id := by
  unfold setProductStatus
  split <;> rfl

theorem setProductStatus_of_ne {pid : Nat} {st : ProductStatus} {x : Product}
    (h : x.product_id ≠ pid) : setProductStatus pid st x = x := by
  unfold setProductStatus
  simp [h]

theorem setProductStatus_status_eq {pid : Nat} {st : ProductStatus} {x : Product}
    (h : x.product_id = pid) : (setProductStatus pid st x).status = st := by
  unfold setProductStatus
  simp [h]

theorem markApproved_status_eq {resId now : Nat} {x : Reservation}
    (h : x.reservation_id = resId) :
    (markApproved resId now x).status = ReservationStatus.approved := by
  unfold markApproved
  simp [h]

theorem markCompleted_status_eq {resId : Nat} {x : Reservation}
    (h : x.reservation_id = resId) :
    (markCompleted resId x).status = ReservationStatus.completed := by
  unfold markCompleted
  simp [h]

theorem markApproved_settled {resId now : Nat} {r : Reservation}
    (h : r.status = ReservationStatus.approved ∨ r.status = ReservationStatus.completed) :
    (markApproved resId now r).status = ReservationStatus.approved ∨
    (markApproved resId now r).status = ReservationStatus.completed := by
  unfold markApproved
  split
  · exact Or.inl rfl
  · exact h

theorem markCompleted_settled {resId : Nat} {r : Reservation}
    (h : r.status = ReservationStatus.approved ∨ r.status = ReservationStatus.completed) :
    (markCompleted resId r).status = ReservationStatus.approved ∨
    (markCompleted resId r).status = ReservationStatus.completed := by
  unfold markCompleted
  split
  · exact Or.inr rfl
  · exact h

theorem markRejected_settled {db : DB} {resId now : Nat} {r0 r : Reservation}
    (hnd : reservationIdsNodup db)
    (hf : db.reservations.find? (fun y => y.reservation_id == resId) = some r0)
    (hs : r0.status = ReservationStatus.pending)
    (hr : r ∈ db.reservations)
    (h : r.status = ReservationStatus.approved ∨ r.status = ReservationStatus.completed) :
    (markRejected resId now r).status = ReservationStatus.approved ∨
    (markRejected resId now r).status = ReservationStatus.completed := by
  unfold markRejected
  split
  next hid =>
    have he : r = r0 := reservation_eq_of_nodup hnd hf hr (by simpa using hid)
    rw [he, hs] at h
    rcases h with h | h <;> exact absurd h (by simp)
  next => exact h

theorem soldImpliesSettled_iff (db : DB) :
    soldImpliesSettled db = true ↔
      ∀ p ∈ db.products, p.status = ProductStatus.sold →
        ∃ r ∈ db.reservations, r.product_id = p.product_id ∧
          (r.status = ReservationStatus.approved ∨
           r.status = ReservationStatus.completed) := by
  unfold soldImpliesSettled
  rw [List.all_eq_true]
  constructor
  · intro h p hp hsold
    have hb := h p hp
    simp only [Bool.or_eq_true, bne_iff_ne, ne_eq, hsold, not_true_eq_false, false_or,
      List.any_eq_true, Bool.and_eq_true, beq_iff_eq] at hb
    obtain ⟨r, hr, h1, h2⟩ := hb
    exact ⟨r, hr, h1, h2⟩
  · intro h p hp
    simp only [Bool.or_eq_true, bne_iff_ne, ne_eq, List.any_eq_true, Bool.and_eq_true,
      beq_iff_eq]
    by_cases hsold : p.status = ProductStatus.sold
    · right
      obtain ⟨r, hr, h1, h2⟩ := h p hp hsold
      exact ⟨r, hr, h1, h2⟩
    · left
      exact hsold

/-- Counterexample to C5 as stated: in a store satisfying the sold-implies-
completed invariant, approving a pending quantity-10 reservation against a
quantity-10 available product (the spec's own Scenario 1) succeeds and
produces a store with a sold product whose only associated reservation is
approved, not completed — so the invariant is not preserved by every
operation. -/
theorem sold_implies_completed_not_preserved :
    soldImpliesCompleted (sampleDB (sampleProduct ProductStatus.available 10)
      [sampleReservation ReservationStatus.pending 10] []) = true ∧
    (applyOp (sampleDB (sampleProduct ProductStatus.available 10)
        [sampleReservation ReservationStatus.pending 10] [])
      (Op.approve 1 1 5)).map soldImpliesCompleted = Except.ok false :=
  ⟨rfl, rfl⟩

/-- C5 (amended): under primary-key uniqueness of reservation ids, every
successful workflow operation preserves the invariant that a product whose
status is sold has at least one associated reservation whose status is
approved or completed.  (The unamended completed-only form fails at approval
time, when the product can turn sold while its reservation is merely
approved.) -/
theorem sold_implies_settled_preserved (db : DB) (hnd : reservationIdsNodup db)
    (op : Op) (db' : DB) (hok : applyOp db op = Except.ok db')
    (hinv : soldImpliesSettled db = true) : soldImpliesSettled db' = true := by
  rw [soldImpliesSettled_iff] at hinv ⊢
  cases op with
  | create rid buyerId productId qty now =>
      obtain ⟨p, hf, hq, hs, hdb⟩ := createReservation_ok_inv hok
      subst hdb
      intro q hq2 hsold
      obtain ⟨r, hr, h1, h2⟩ := hinv q hq2 hsold
      exact ⟨r, List.mem_append_left _ hr, h1, h2⟩
  | approve resId nid now =>
      obtain ⟨r0, p0, hf, hs, hp, hdb⟩ := approveReservation_ok_inv hok
      subst hdb
      have hr0 := find?_reservation_mem hf
      have hp0 := find?_product_mem hp
      intro q hq hsold
      obtain ⟨p, hpmem, hqp⟩ := List.mem_map.mp hq
      by_cases hid : p.product_id = p0.product_id
      · refine ⟨markApproved resId now r0,
          List.mem_map_of_mem (markApproved resId now) hr0.1, ?_, ?_⟩
        · rw [markApproved_product_id, ← hqp, setProductStatus_product_id, hid, hp0.2]
        · exact Or.inl (markApproved_status_eq hr0.2)
      · rw [← hqp, setProductStatus_of_ne hid] at hsold
        obtain ⟨r, hr, h1, h2⟩ := hinv p hpmem hsold
        refine ⟨markApproved resId now r,
          List.mem_map_of_mem (markApproved resId now) hr, ?_, ?_⟩
        · rw [markApproved_product_id, h1, ← hqp, setProductStatus_product_id]
        · exact markApproved_settled h2
  | reject resId nid now =>
      obtain ⟨r0, hf, hs, hdb⟩ := rejectReservation_ok_inv hok
      subst hdb
      intro q hq hsold
      obtain ⟨p, hpmem, hqp⟩ := List.mem_map.mp hq
      by_cases hid : p.product_id = r0.product_id
      · rw [← hqp, setProductStatus_status_eq hid] at hsold
        exact absurd hsold (by simp)
      · rw [← hqp, setProductStatus_of_ne hid] at hsold
        obtain ⟨r, hr, h1, h2⟩ := hinv p hpmem hsold
        refine ⟨markRejected resId now r,
          List.mem_map_of_mem (markRejected resId now) hr, ?_, ?_⟩
        · rw [markRejected_product_id, h1, ← hqp, setProductStatus_product_id]
        · exact markRejected_settled hnd hf hs hr h2
  | complete resId =>
      obtain ⟨r0, hf, hs, hdb⟩ := completeReservation_ok_inv hok
      subst hdb
      have hr0 := find?_reservation_mem hf
      intro q hq hsold
      obtain ⟨p, hpmem, hqp⟩ := List.mem_map.mp hq
      by_cases hid : p.product_id = r0.product_id
      · refine ⟨markCompleted resId r0,
          List.mem_map_of_mem (markCompleted resId) hr0.1, ?_, ?_⟩
        · rw [markCompleted_product_id, ← hqp, setProductStatus_product_id, hid]
        · exact Or.inr (markCompleted_status_eq hr0.2)
      · rw [← hqp, setProductStatus_of_ne hid] at hsold
        obtain ⟨r, hr, h1, h2⟩ := hinv p hpmem hsold
        refine ⟨markCompleted resId r,
          List.mem_map_of_mem (markCompleted resId) hr, ?_, ?_⟩
        · rw [markCompleted_product_id, h1, ← hqp, setProductStatus_product_id]
        · exact markCompleted_settled h2
  | record txId resId farmerId buyerId amount ref receipt now =>
      obtain ⟨r0, hf, hs, hdb⟩ := recordTransaction_ok_inv hok
      subst hdb
      exact hinv
  | confirm txId now =>
      obtain ⟨t, hf, hcase⟩ := confirmTransaction_ok_inv hok
      rcases hcase with ⟨hc, hdb⟩ | ⟨hc, hdb⟩ <;> subst hdb <;> exact hinv
  | review reviewId resId reviewerId farmerId rating comment now =>
      obtain ⟨r0, hf, hs, hdup, h1, h5, hdb⟩ := createReview_ok_inv hok
      subst hdb
      exact hinv
  | favorite favId buyerId productId farmerId now =>
      obtain ⟨hc, hdb⟩ := addFavorite_ok_inv hok
      subst hdb
      exact hinv

/-- Witness for the amended C5: after Scenario 1's approval the store still
satisfies the approved-or-completed form of the invariant. -/
theorem sold_implies_settled_preserved_witness :
    ∃ db', applyOp (sampleDB (sampleProduct ProductStatus.available 10)
        [sampleReservation ReservationStatus.pending 10] [])
      (Op.approve 1 1 5) = Except.ok db' ∧ soldImpliesSettled db' = true := by
  refine ⟨_, rfl, ?_⟩
  exact sold_implies_settled_preserved
    (sampleDB (sampleProduct ProductStatus.available 10)
      [sampleReservation ReservationStatus.pending 10] [])
    (by unfold reservationIdsNodup; decide) (Op.approve 1 1 5) _ rfl rfl

/-- C9: creating a review against a reservation that is not completed fails
with ValidationError; whenever review creation succeeds the referenced
reservation was completed at that moment; and the at-most-one-review-per-
reservation bound (schema UNIQUE on reviews.reservation_id) is preserved by
every workflow operation. -/
theorem review_requires_completed (db : DB) :
    (∀ reviewId resId reviewerId farmerId rating comment now r,
      db.reservations.find? (fun x => x.reservation_id == resId) = some r →
      r.status ≠ ReservationStatus.completed →
      createReview db reviewId resId reviewerId farmerId rating comment now
        = Except.error WorkflowError.ValidationError) ∧
    (∀ reviewId resId reviewerId farmerId rating comment now db',
      createReview db reviewId resId reviewerId farmerId rating comment now
        = Except.ok db' →
      ∃ r ∈ db.reservations, r.reservation_id = resId ∧
        r.status = ReservationStatus.completed) ∧
    ((∀ resId, (reviewsFor db resId).length ≤ 1) →
      ∀ op db', applyOp db op = Except.ok db' →
      ∀ resId, (reviewsFor db' resId).length ≤ 1) := by
  refine ⟨?_, ?_, ?_⟩
  · intro reviewId resId reviewerId farmerId rating comment now r hf hs
    unfold createReview
    rw [hf]
    simp [hs]
  · intro reviewId resId reviewerId farmerId rating comment now db' hok
    obtain ⟨r, hf, hs, _, _, _, _⟩ := createReview_ok_inv hok
    have hr := find?_reservation_mem hf
    exact ⟨r, hr.1, hr.2, hs⟩
  · intro hinv op db' hok resId
    cases op with
    | create rid buyerId productId qty now =>
        obtain ⟨p, hf, hq, hs, hdb⟩ := createReservation_ok_inv hok
        subst hdb
        exact hinv resId
    | approve resId0 nid now =>
        obtain ⟨r0, p0, hf, hs, hp, hdb⟩ := approveReservation_ok_inv hok
        subst hdb
        exact hinv resId
    | reject resId0 nid now =>
        obtain ⟨r0, hf, hs, hdb⟩ := rejectReservation_ok_inv hok
        subst hdb
        exact hinv resId
    | complete resId0 =>
        obtain ⟨r0, hf, hs, hdb⟩ := completeReservation_ok_inv hok
        subst hdb
        exact hinv resId
    | record txId resId0 farmerId buyerId amount ref receipt now =>
        obtain ⟨r0, hf, hs, hdb⟩ := recordTransaction_ok_inv hok
        subst hdb
        exact hinv resId
    | confirm txId now =>
        obtain ⟨t, hf, hcase⟩ := confirmTransaction_ok_inv hok
        rcases hcase with ⟨hc, hdb⟩ | ⟨hc, hdb⟩ <;> subst hdb <;> exact hinv resId
    | review reviewId resId0 reviewerId farmerId rating comment now =>
        obtain ⟨r0, hf, hs, hdup, hlow, hhigh, hdb⟩ := createReview_ok_inv hok
        subst hdb
        show ((db.reviews
          ++ [newReview reviewId resId0 reviewerId farmerId rating comment now]).filter
            (fun v => v.reservation_id == some resId)).length ≤ 1
        rw [List.filter_append, List.length_append]
        by_cases hres : resId = resId0
        · subst hres
          have h0 : db.reviews.filter (fun v => v.reservation_id == some resId) = [] := by
            rw [List.filter_eq_nil_iff]
            intro v hv hb
            have hany : db.reviews.any (fun v => v.reservation_id == some resId) = true :=
              List.any_eq_true.mpr ⟨v, hv, hb⟩
            rw [hdup] at hany
            exact absurd hany (by simp)
          rw [h0]
          simp [newReview]
        · have h1 : ([newReview reviewId resId0 reviewerId farmerId rating comment now].filter
              (fun v => v.reservation_id == some resId)) = [] := by
            simp [newReview, Ne.symm hres]
          rw [h1]
          simpa using hinv resId
    | favorite favId buyerId productId farmerId now =>
        obtain ⟨hc, hdb⟩ := addFavorite_ok_inv hok
        subst hdb
        exact hinv resId

/-- Witness for C9: Scenario 5's negative half — reviewing the store's
pending reservation fails with ValidationError — and on a store with a
completed reservation a successful review leaves at most one review per
reservation. -/
theorem review_requires_completed_witness :
    createReview (sampleDB (sampleProduct ProductStatus.available 10)
        [sampleReservation ReservationStatus.pending 5] []) 1 1 2 1 4 none 9
      = Except.error WorkflowError.ValidationError ∧
    ∃ db', applyOp (sampleDB (sampleProduct ProductStatus.sold 10)
        [sampleReservation ReservationStatus.completed 10] [])
      (Op.review 1 1 2 1 5 none 9) = Except.ok db' ∧
      ∀ resId, (reviewsFor db' resId).length ≤ 1 := by
  constructor
  · exact (review_requires_completed
      (sampleDB (sampleProduct ProductStatus.available 10)
        [sampleReservation ReservationStatus.pending 5] [])).1
      1 1 2 1 4 none 9 (sampleReservation ReservationStatus.pending 5) rfl (by decide)
  · refine ⟨_, rfl, ?_⟩
    exact (review_requires_completed
      (sampleDB (sampleProduct ProductStatus.sold 10)
        [sampleReservation ReservationStatus.completed 10] [])).2.2
      (fun _ => Nat.zero_le 1) (Op.review 1 1 2 1 5 none 9) _ rfl

/-- C10: in a store whose favorites all pass the schema CHECK, every
favorites row names exactly one of a product or a farmer; inserting a row
that names both or neither fails with ValidationError; and every successful
workflow operation preserves the CHECK on all favorites rows. -/
theorem favorites_exactly_one_target (db : DB) (hinv : favoritesOk db = true) :
    (∀ f ∈ db.favorites,
      (f.product_id.isSome = true ∧ f.farmer_id = none) ∨
      (f.product_id = none ∧ f.farmer_id.isSome = true)) ∧
    (∀ favId buyerId productId farmerId now,
      favoriteCheck (newFavorite favId buyerId productId farmerId now) = false →
      applyOp db (Op.favorite favId buyerId productId farmerId now)
        = Except.error WorkflowError.ValidationError) ∧
    (∀ op db', applyOp db op = Except.ok db' → favoritesOk db' = true) := by
  refine ⟨?_, ?_, ?_⟩
  · intro f hf
    have hb : favoriteCheck f = true := List.all_eq_true.mp hinv f hf
    unfold favoriteCheck at hb
    simp only [Bool.or_eq_true, Bool.and_eq_true, Option.isNone_iff_eq_none] at hb
    rcases hb with ⟨h1, h2⟩ | ⟨h1, h2⟩
    · exact Or.inl ⟨h1, h2⟩
    · exact Or.inr ⟨h1, h2⟩
  · intro favId buyerId productId farmerId now hc
    show addFavorite db favId buyerId productId farmerId now
      = Except.error WorkflowError.ValidationError
    unfold addFavorite
    simp [hc]
  · intro op db' hok
    cases op with
    | create rid buyerId productId qty now =>
        obtain ⟨p, hf, hq, hs, hdb⟩ := createReservation_ok_inv hok
        subst hdb
        exact hinv
    | approve resId nid now =>
        obtain ⟨r0, p0, hf, hs, hp, hdb⟩ := approveReservation_ok_inv hok
        subst hdb
        exact hinv
    | reject resId nid now =>
        obtain ⟨r0, hf, hs, hdb⟩ := rejectReservation_ok_inv hok
        subst hdb
        exact hinv
    | complete resId =>
        obtain ⟨r0, hf, hs, hdb⟩ := completeReservation_ok_inv hok
        subst hdb
        exact hinv
    | record txId resId farmerId buyerId amount ref receipt now =>
        obtain ⟨r0, hf, hs, hdb⟩ := recordTransaction_ok_inv hok
        subst hdb
        exact hinv
    | confirm txId now =>
        obtain ⟨t, hf, hcase⟩ := confirmTransaction_ok_inv hok
        rcases hcase with ⟨hc, hdb⟩ | ⟨hc, hdb⟩ <;> subst hdb <;> exact hinv
    | review reviewId resId reviewerId farmerId rating comment now =>
        obtain ⟨r0, hf, hs, hdup, hlow, hhigh, hdb⟩ := createReview_ok_inv hok
        subst hdb
        exact hinv
    | favorite favId buyerId productId farmerId now =>
        obtain ⟨hc, hdb⟩ := addFavorite_ok_inv hok
        subst hdb
        show (db.favorites ++ [newFavorite favId buyerId productId farmerId now]).all
          favoriteCheck = true
        rw [List.all_append]
        unfold favoritesOk at hinv
        rw [hinv]
        simp [hc]

/-- Witness for C10: on an empty store, inserting a favorite naming neither
target fails with ValidationError, and inserting one naming exactly a
product succeeds with the CHECK holding on all rows. -/
theorem favorites_exactly_one_target_witness :
    applyOp (sampleDB (sampleProduct ProductStatus.available 10) [] [])
      (Op.favorite 1 2 none none 0)
      = Except.error WorkflowError.ValidationError ∧
    ∃ db', applyOp (sampleDB (sampleProduct ProductStatus.available 10) [] [])
      (Op.favorite 1 2 (some 1) none 0) = Except.ok db' ∧
      favoritesOk db' = true := by
  constructor
  · exact (favorites_exactly_one_target
      (sampleDB (sampleProduct ProductStatus.available 10) [] []) rfl).2.1
      1 2 none none 0 rfl
  · refine ⟨_, rfl, ?_⟩
    exact (favorites_exactly_one_target
      (sampleDB (sampleProduct ProductStatus.available 10) [] []) rfl).2.2
      (Op.favorite 1 2 (some 1) none 0) _ rfl

end Agriport
